import Mathlib

/-!
Verification development for the browser widgets of the blog_side_api
repository: the background-music toggle widget (class MusicPlayer in
src/unnamed/part_000; the same methods appear verbatim in both variants of
src/web/music.js) and the canvas snow overlay (class SnowEffect in
src/unnamed/part_000).

Modelling conventions of the shallow embedding:
- DOM state that the widget reads back (container created, icon glyph,
  the armed one-shot document click listener) is tracked in the state
  record; pure styling writes are dropped.
- The promise returned by audio.play either resolves or rejects; the
  outcome is passed in as an explicit boolean parameter named ok.
- Math.random is an explicit tape of rationals, with a cursor in the
  state recording how many draws have been consumed.
- Math.pow(d, 0.5) and Math.sin are abstract function parameters sq and
  sn, since the claims never depend on their concrete values beyond
  nonnegativity of the square root.
- Numbers are modelled as rationals.
-/

/-- Glyph shown by the music widget toggle button: the innerHTML write in
MusicPlayer.updateIcon chooses between the note glyph and the mute glyph. -/
inductive Icon where
  | music
  | muted
  deriving Repr, DecidableEq

/-- State of the MusicPlayer widget, from the constructor and the fields
mutated by its methods in src/unnamed/part_000 lines 1-174. -/
structure MusicPlayer where
  audioSrc : Option String
  audioLoop : Bool
  audioVolume : ℚ
  isPlaying : Bool
  playlist : List String
  uiCreated : Bool
  icon : Option Icon
  startPlayArmed : Bool
  deriving Repr, DecidableEq

/-- The state built by the MusicPlayer constructor: a fresh Audio element
(volume 1, loop off, no source), isPlaying false, empty playlist, no UI. -/
def MusicPlayer.initial : MusicPlayer :=
  { audioSrc := none, audioLoop := false, audioVolume := 1, isPlaying := false,
    playlist := [], uiCreated := false, icon := none, startPlayArmed := false }

/-- MusicPlayer.updateIcon: guarded by the toggleBtn null check, which holds
exactly when createUI has run; writes the glyph chosen by isPlaying. -/
def MusicPlayer.updateIcon (s : MusicPlayer) : MusicPlayer :=
  if s.uiCreated then
    { s with icon := some (if s.isPlaying then Icon.music else Icon.muted) }
  else s

/-- MusicPlayer.createUI: early return when the container element already
exists; otherwise builds the DOM controls and ends by calling updateIcon. -/
def MusicPlayer.createUI (s : MusicPlayer) : MusicPlayer :=
  if s.uiCreated then s
  else MusicPlayer.updateIcon { s with uiCreated := true }

/-- MusicPlayer.play: the resolved branch sets isPlaying to true and calls
updateIcon; the rejected branch only logs the error and changes nothing. -/
def MusicPlayer.play (ok : Bool) (s : MusicPlayer) : MusicPlayer :=
  if ok then MusicPlayer.updateIcon { s with isPlaying := true } else s

/-- MusicPlayer.pause: pauses the audio element, clears isPlaying, updates
the icon. -/
def MusicPlayer.pause (s : MusicPlayer) : MusicPlayer :=
  MusicPlayer.updateIcon { s with isPlaying := false }

/-- MusicPlayer.toggle: dispatches on the current isPlaying flag. -/
def MusicPlayer.toggle (ok : Bool) (s : MusicPlayer) : MusicPlayer :=
  if s.isPlaying then s.pause else s.play ok

/-- MusicPlayer.init: early return on a missing or empty URL; otherwise set
the playlist, source, loop flag and volume 0.5, build the UI, then attempt
autoplay. A resolved attempt sets isPlaying; a rejected attempt logs, clears
isPlaying, updates the icon and arms the one-shot document click listener. -/
def MusicPlayer.init (url : Option String) (ok : Bool) (s : MusicPlayer) : MusicPlayer :=
  match url with
  | none => s
  | some u =>
    if u = "" then s
    else
      let s2 := MusicPlayer.createUI
        { s with playlist := [u], audioSrc := some u, audioLoop := true, audioVolume := 1/2 }
      if ok then MusicPlayer.updateIcon { s2 with isPlaying := true }
      else { MusicPlayer.updateIcon { s2 with isPlaying := false } with startPlayArmed := true }

/-- A document click. When the one-shot startPlay listener is armed it calls
play and removes itself; otherwise the widget does not react. -/
def MusicPlayer.docClick (ok : Bool) (s : MusicPlayer) : MusicPlayer :=
  if s.startPlayArmed then { s.play ok with startPlayArmed := false } else s

/-- The input handler of the volume slider: assigns the delivered slider
value directly to the volume of the audio element. -/
def MusicPlayer.volumeInput (v : ℚ) (s : MusicPlayer) : MusicPlayer :=
  { s with audioVolume := v }

@[simp] lemma MusicPlayer.updateIcon_isPlaying (s : MusicPlayer) :
    (MusicPlayer.updateIcon s).isPlaying = s.isPlaying := by
  unfold MusicPlayer.updateIcon; split <;> rfl

@[simp] lemma MusicPlayer.updateIcon_audioVolume (s : MusicPlayer) :
    (MusicPlayer.updateIcon s).audioVolume = s.audioVolume := by
  unfold MusicPlayer.updateIcon; split <;> rfl

@[simp] lemma MusicPlayer.updateIcon_uiCreated (s : MusicPlayer) :
    (MusicPlayer.updateIcon s).uiCreated = s.uiCreated := by
  unfold MusicPlayer.updateIcon; split <;> rfl

@[simp] lemma MusicPlayer.updateIcon_startPlayArmed (s : MusicPlayer) :
    (MusicPlayer.updateIcon s).startPlayArmed = s.startPlayArmed := by
  unfold MusicPlayer.updateIcon; split <;> rfl

@[simp] lemma MusicPlayer.createUI_uiCreated (s : MusicPlayer) :
    (MusicPlayer.createUI s).uiCreated = true := by
  unfold MusicPlayer.createUI; split
  · assumption
  · simp

@[simp] lemma MusicPlayer.createUI_audioVolume (s : MusicPlayer) :
    (MusicPlayer.createUI s).audioVolume = s.audioVolume := by
  unfold MusicPlayer.createUI; split <;> simp

@[simp] lemma MusicPlayer.createUI_isPlaying (s : MusicPlayer) :
    (MusicPlayer.createUI s).isPlaying = s.isPlaying := by
  unfold MusicPlayer.createUI; split <;> simp

@[simp] lemma MusicPlayer.createUI_startPlayArmed (s : MusicPlayer) :
    (MusicPlayer.createUI s).startPlayArmed = s.startPlayArmed := by
  unfold MusicPlayer.createUI; split <;> simp

@[simp] lemma MusicPlayer.pause_isPlaying (s : MusicPlayer) :
    (MusicPlayer.pause s).isPlaying = false := by
  unfold MusicPlayer.pause; simp

@[simp] lemma MusicPlayer.play_true_isPlaying (s : MusicPlayer) :
    (MusicPlayer.play true s).isPlaying = true := by
  unfold MusicPlayer.play; simp

/-- Claim C1: for the audio widget in any state, calling toggle twice (with
the playback promise resolving, the normal situation the spec describes)
returns the isPlaying flag to its original value, and each single toggle
switches between the play path and the pause path based on the current
isPlaying flag. From MusicPlayer.toggle in src/unnamed/part_000 lines
155-158 and src/web/music.js. -/
theorem music_toggle_twice_restores (s : MusicPlayer) (ok : Bool) :
    (MusicPlayer.toggle true (MusicPlayer.toggle true s)).isPlaying = s.isPlaying ∧
    MusicPlayer.toggle ok s = (if s.isPlaying then s.pause else s.play ok) := by
  refine ⟨?_, rfl⟩
  unfold MusicPlayer.toggle
  cases hp : s.isPlaying <;> simp [hp]

lemma MusicPlayer.init_none_eq (s : MusicPlayer) (ok : Bool) :
    MusicPlayer.init none ok s = s := rfl

lemma MusicPlayer.init_empty_eq (s : MusicPlayer) (ok : Bool) :
    MusicPlayer.init (some "") ok s = s := by
  unfold MusicPlayer.init; simp

/-- Claim C9: init with a missing URL or the empty string is a complete
no-op: the guard at the top of MusicPlayer.init returns before any state is
touched (src/unnamed/part_000 lines 12-14, src/web/music.js lines 13-16). -/
theorem music_init_empty_noop (s : MusicPlayer) (ok : Bool) :
    MusicPlayer.init none ok s = s ∧ MusicPlayer.init (some "") ok s = s :=
  ⟨MusicPlayer.init_none_eq s ok, MusicPlayer.init_empty_eq s ok⟩

@[simp] lemma MusicPlayer.play_audioVolume (s : MusicPlayer) (ok : Bool) :
    (MusicPlayer.play ok s).audioVolume = s.audioVolume := by
  unfold MusicPlayer.play; split <;> simp

@[simp] lemma MusicPlayer.pause_audioVolume (s : MusicPlayer) :
    (MusicPlayer.pause s).audioVolume = s.audioVolume := by
  unfold MusicPlayer.pause; simp

@[simp] lemma MusicPlayer.toggle_audioVolume (s : MusicPlayer) (ok : Bool) :
    (MusicPlayer.toggle ok s).audioVolume = s.audioVolume := by
  unfold MusicPlayer.toggle; split <;> simp

@[simp] lemma MusicPlayer.docClick_audioVolume (s : MusicPlayer) (ok : Bool) :
    (MusicPlayer.docClick ok s).audioVolume = s.audioVolume := by
  unfold MusicPlayer.docClick; split <;> simp

lemma MusicPlayer.init_some_audioVolume (s : MusicPlayer) (u : String) (ok : Bool)
    (hu : u ≠ "") : (MusicPlayer.init (some u) ok s).audioVolume = 1/2 := by
  simp only [MusicPlayer.init, if_neg hu]
  split <;> simp

/-- Claim C2: init with a non-empty URL whose autoplay attempt is rejected
leaves isPlaying false, shows the muted icon and arms the one-shot document
click listener; a document click whose retried playback resolves sets
isPlaying to true and removes the listener; afterwards a failing playback
attempt is only logged (the state is untouched) and further document clicks
do nothing. From MusicPlayer.init lines 12-36 of src/unnamed/part_000. -/
theorem music_autoplay_blocked_fallback (s : MusicPlayer) (url : String) (b : Bool)
    (hurl : url ≠ "") :
    (MusicPlayer.init (some url) false s).isPlaying = false ∧
    (MusicPlayer.init (some url) false s).icon = some Icon.muted ∧
    (MusicPlayer.init (some url) false s).startPlayArmed = true ∧
    (MusicPlayer.docClick true (MusicPlayer.init (some url) false s)).isPlaying = true ∧
    (MusicPlayer.docClick true (MusicPlayer.init (some url) false s)).startPlayArmed = false ∧
    MusicPlayer.play false (MusicPlayer.docClick true (MusicPlayer.init (some url) false s)) =
      MusicPlayer.docClick true (MusicPlayer.init (some url) false s) ∧
    MusicPlayer.docClick b (MusicPlayer.docClick true (MusicPlayer.init (some url) false s)) =
      MusicPlayer.docClick true (MusicPlayer.init (some url) false s) := by
  simp only [MusicPlayer.init, if_neg hurl]
  cases hb : s.uiCreated <;>
    simp [MusicPlayer.createUI, MusicPlayer.updateIcon, MusicPlayer.docClick,
      MusicPlayer.play, hb]

/-- The operations through which page code and the DOM event handlers drive
the music widget; each constructor names the method of MusicPlayer that the
event dispatches to, with the promise outcome of any playback attempt. -/
inductive MPOp where
  | opInit (url : Option String) (ok : Bool)
  | opToggle (ok : Bool)
  | opPlay (ok : Bool)
  | opPause
  | opDocClick (ok : Bool)
  | opVolumeInput (v : ℚ)

/-- Dispatch one widget operation to the corresponding MusicPlayer method. -/
def MusicPlayer.applyOp (s : MusicPlayer) : MPOp → MusicPlayer
  | MPOp.opInit url ok => s.init url ok
  | MPOp.opToggle ok => s.toggle ok
  | MPOp.opPlay ok => s.play ok
  | MPOp.opPause => s.pause
  | MPOp.opDocClick ok => s.docClick ok
  | MPOp.opVolumeInput v => s.volumeInput v

/-- Run a sequence of widget operations from a starting state. -/
def MusicPlayer.applyOps (s : MusicPlayer) (ops : List MPOp) : MusicPlayer :=
  ops.foldl MusicPlayer.applyOp s

/-- A volume event respects the slider bounds min 0 and max 1, which the
browser enforces on a range input before the handler sees the value. -/
def MPOp.volOk : MPOp → Bool
  | MPOp.opVolumeInput v => decide (0 ≤ v) && decide (v ≤ 1)
  | _ => true

lemma MusicPlayer.applyOp_volume_bounds (s : MusicPlayer) (op : MPOp)
    (hop : op.volOk = true) (h0 : 0 ≤ s.audioVolume) (h1 : s.audioVolume ≤ 1) :
    0 ≤ (s.applyOp op).audioVolume ∧ (s.applyOp op).audioVolume ≤ 1 := by
  cases op with
  | opInit url ok =>
    cases url with
    | none => exact ⟨h0, h1⟩
    | some u =>
      by_cases hu : u = ""
      · subst hu
        have h := MusicPlayer.init_empty_eq s ok
        simp only [MusicPlayer.applyOp, h]
        exact ⟨h0, h1⟩
      · have h := MusicPlayer.init_some_audioVolume s u ok hu
        simp only [MusicPlayer.applyOp, h]
        norm_num
  | opToggle ok =>
    simp only [MusicPlayer.applyOp, MusicPlayer.toggle_audioVolume]
    exact ⟨h0, h1⟩
  | opPlay ok =>
    simp only [MusicPlayer.applyOp, MusicPlayer.play_audioVolume]
    exact ⟨h0, h1⟩
  | opPause =>
    simp only [MusicPlayer.applyOp, MusicPlayer.pause_audioVolume]
    exact ⟨h0, h1⟩
  | opDocClick ok =>
    simp only [MusicPlayer.applyOp, MusicPlayer.docClick_audioVolume]
    exact ⟨h0, h1⟩
  | opVolumeInput v =>
    unfold MPOp.volOk at hop
    simp only [Bool.and_eq_true, decide_eq_true_eq] at hop
    simp only [MusicPlayer.applyOp, MusicPlayer.volumeInput]
    exact hop

lemma MusicPlayer.applyOps_volume_bounds (ops : List MPOp) (s : MusicPlayer)
    (hops : ops.all MPOp.volOk = true) (h0 : 0 ≤ s.audioVolume) (h1 : s.audioVolume ≤ 1) :
    0 ≤ (s.applyOps ops).audioVolume ∧ (s.applyOps ops).audioVolume ≤ 1 := by
  induction ops generalizing s with
  | nil => exact ⟨h0, h1⟩
  | cons op rest ih =>
    simp only [List.all_cons, Bool.and_eq_true] at hops
    have hstep := MusicPlayer.applyOp_volume_bounds s op hops.1 h0 h1
    exact ih (s.applyOp op) hops.2 hstep.1 hstep.2

/-- Claim C8: the volume slider handler assigns exactly the delivered value
to the audio element, init sets the volume to 0.5, and across any sequence
of widget operations whose volume events respect the slider bounds the
volume of a freshly constructed widget stays in the interval from 0 to 1.
From src/unnamed/part_000 lines 91-102 and 133-137. -/
theorem music_volume_exact_and_bounded (v : ℚ) (s : MusicPlayer) (ops : List MPOp)
    (u : String) (ok : Bool) (hv0 : 0 ≤ v) (hv1 : v ≤ 1) (hu : u ≠ "")
    (hops : ops.all MPOp.volOk = true) :
    (MusicPlayer.volumeInput v s).audioVolume = v ∧
    (MusicPlayer.init (some u) ok s).audioVolume = 1/2 ∧
    0 ≤ (MusicPlayer.applyOps MusicPlayer.initial ops).audioVolume ∧
    (MusicPlayer.applyOps MusicPlayer.initial ops).audioVolume ≤ 1 := by
  refine ⟨rfl, MusicPlayer.init_some_audioVolume s u ok hu, ?_⟩
  exact MusicPlayer.applyOps_volume_bounds ops MusicPlayer.initial hops
    (by norm_num [MusicPlayer.initial]) (by norm_num [MusicPlayer.initial])

/-- Concrete operation sequence used to instantiate the claim C8 theorem. -/
def volOpsSample : List MPOp :=
  [MPOp.opInit (some "track.mp3") false, MPOp.opVolumeInput (3/4),
   MPOp.opToggle true, MPOp.opPause]

/-- Witness for claim C8 at a concrete volume, state and operation list. -/
theorem music_volume_exact_and_bounded_witness :
    (0 ≤ (3/4 : ℚ) ∧ (3/4 : ℚ) ≤ 1 ∧ ("track.mp3" : String) ≠ "" ∧
      volOpsSample.all MPOp.volOk = true) ∧
    ((MusicPlayer.volumeInput (3/4) MusicPlayer.initial).audioVolume = 3/4 ∧
      (MusicPlayer.init (some "track.mp3") true MusicPlayer.initial).audioVolume = 1/2 ∧
      0 ≤ (MusicPlayer.applyOps MusicPlayer.initial volOpsSample).audioVolume ∧
      (MusicPlayer.applyOps MusicPlayer.initial volOpsSample).audioVolume ≤ 1) :=
  ⟨⟨by norm_num, by norm_num, by decide, by norm_num [volOpsSample, MPOp.volOk]⟩,
    music_volume_exact_and_bounded (3/4) MusicPlayer.initial volOpsSample "track.mp3" true
      (by norm_num) (by norm_num) (by decide) (by norm_num [volOpsSample, MPOp.volOk])⟩

/-- Witness for claim C2 at a concrete state and URL. -/
theorem music_autoplay_blocked_fallback_witness :
    ("track.mp3" : String) ≠ "" ∧
    ((MusicPlayer.init (some "track.mp3") false MusicPlayer.initial).isPlaying = false ∧
      (MusicPlayer.init (some "track.mp3") false MusicPlayer.initial).icon = some Icon.muted ∧
      (MusicPlayer.init (some "track.mp3") false MusicPlayer.initial).startPlayArmed = true ∧
      (MusicPlayer.docClick true
        (MusicPlayer.init (some "track.mp3") false MusicPlayer.initial)).isPlaying = true ∧
      (MusicPlayer.docClick true
        (MusicPlayer.init (some "track.mp3") false MusicPlayer.initial)).startPlayArmed = false ∧
      MusicPlayer.play false (MusicPlayer.docClick true
          (MusicPlayer.init (some "track.mp3") false MusicPlayer.initial)) =
        MusicPlayer.docClick true
          (MusicPlayer.init (some "track.mp3") false MusicPlayer.initial) ∧
      MusicPlayer.docClick true (MusicPlayer.docClick true
          (MusicPlayer.init (some "track.mp3") false MusicPlayer.initial)) =
        MusicPlayer.docClick true
          (MusicPlayer.init (some "track.mp3") false MusicPlayer.initial)) :=
  ⟨by decide,
    music_autoplay_blocked_fallback MusicPlayer.initial "track.mp3" true (by decide)⟩

/-- One snow particle, from the record literal built in
SnowEffect.createFlakes: position x and y, radius r, density d, alpha a. -/
structure Flake where
  x : ℚ
  y : ℚ
  r : ℚ
  d : ℚ
  a : ℚ
  deriving Repr, DecidableEq

instance : Inhabited Flake := ⟨⟨0, 0, 0, 0, 0⟩⟩

/-- State of the snow overlay, from the SnowEffect constructor in
src/unnamed/part_000 lines 176-182. The canvas element and its 2d context
are modelled by presence flags plus the mirrored width and height; the
cancelled list records the ids passed to cancelAnimationFrame and rngPos is
the cursor into the Math.random tape. -/
structure SnowEffect where
  hasCanvas : Bool
  hasCtx : Bool
  canvasW : ℚ
  canvasH : ℚ
  flakes : List Flake
  isRunning : Bool
  animationFrame : Option Nat
  cancelled : List Nat
  rngPos : Nat
  deriving Repr, DecidableEq

/-- The state built by the SnowEffect constructor: no canvas, no context,
no flakes, not running, no pending frame request. -/
def SnowEffect.initial : SnowEffect :=
  { hasCanvas := false, hasCtx := false, canvasW := 0, canvasH := 0, flakes := [],
    isRunning := false, animationFrame := none, cancelled := [], rngPos := 0 }

/-- SnowEffect.resize: guarded by the canvas null check; mirrors the current
window dimensions w and h into the canvas. -/
def SnowEffect.resize (w h : ℚ) (s : SnowEffect) : SnowEffect :=
  if s.hasCanvas then { s with canvasW := w, canvasH := h } else s

/-- SnowEffect.init: when the canvas element does not exist yet, create it,
take its 2d context, register the resize listener and call resize once with
the current window dimensions. -/
def SnowEffect.init (w h : ℚ) (s : SnowEffect) : SnowEffect :=
  if s.hasCanvas then s
  else SnowEffect.resize w h { s with hasCanvas := true, hasCtx := true }

/-- The flake record literal of SnowEffect.createFlakes, reading five
consecutive Math.random draws starting at tape position k: random x across
the canvas width, random y across the canvas height, radius in 1 to 4,
density in 0 to 50, alpha in 0 to 1. -/
def mkFlake (rnd : Nat → ℚ) (w h : ℚ) (k : Nat) : Flake :=
  { x := rnd k * w, y := rnd (k + 1) * h, r := rnd (k + 2) * 3 + 1,
    d := rnd (k + 3) * 50, a := rnd (k + 4) }

/-- SnowEffect.createFlakes: replaces the flake list with 50 freshly drawn
flakes (count = 50), consuming five tape draws per flake. -/
def SnowEffect.createFlakes (rnd : Nat → ℚ) (s : SnowEffect) : SnowEffect :=
  { s with
    flakes := (List.range 50).map (fun i => mkFlake rnd s.canvasW s.canvasH (s.rngPos + 5 * i)),
    rngPos := s.rngPos + 5 * 50 }

/-- The body of the loop in SnowEffect.move for the flake at index i: add
the density-derived fall speed to y and the sinusoidal sway to x, then, when
the new y passes the canvas height h, replace the flake by one at a fresh
random x and y 0 that keeps r, d and a. Returns the flake together with the
updated tape cursor; sq stands for Math.pow with exponent 0.5 and sn for
Math.sin. -/
def moveFlake (sq sn : ℚ → ℚ) (rnd : Nat → ℚ) (w h : ℚ) (i k : Nat) (f : Flake) :
    Flake × Nat :=
  let y2 := f.y + (sq f.d * (1/2) + 1)
  let x2 := f.x + sn ((i : ℚ) + f.d) * (1/2)
  if y2 > h then ({ x := rnd k * w, y := 0, r := f.r, d := f.d, a := f.a }, k + 1)
  else ({ f with x := x2, y := y2 }, k)

/-- The loop of SnowEffect.move over the flake list, threading the flake
index and the tape cursor. -/
def moveFlakes (sq sn : ℚ → ℚ) (rnd : Nat → ℚ) (w h : ℚ) :
    Nat → Nat → List Flake → List Flake × Nat
  | _, k, [] => ([], k)
  | i, k, f :: fs =>
    let p := moveFlake sq sn rnd w h i k f
    let rest := moveFlakes sq sn rnd w h (i + 1) p.2 fs
    (p.1 :: rest.1, rest.2)

/-- SnowEffect.move: advance every flake once against the current canvas
size. -/
def SnowEffect.move (sq sn : ℚ → ℚ) (rnd : Nat → ℚ) (s : SnowEffect) : SnowEffect :=
  { s with
    flakes := (moveFlakes sq sn rnd s.canvasW s.canvasH 0 s.rngPos s.flakes).1,
    rngPos := (moveFlakes sq sn rnd s.canvasW s.canvasH 0 s.rngPos s.flakes).2 }

/-- One execution of SnowEffect.draw: return immediately when not running;
otherwise clear the canvas, paint the current flakes, call move and store
the next frame request id (fid names the id the browser returns). -/
def SnowEffect.drawFrame (sq sn : ℚ → ℚ) (rnd : Nat → ℚ) (fid : Nat) (s : SnowEffect) :
    SnowEffect :=
  if s.isRunning then { s.move sq sn rnd with animationFrame := some fid } else s

/-- SnowEffect.start: no-op when already running; otherwise init the canvas,
regenerate the flakes, set isRunning and run draw once (which also schedules
the next frame). -/
def SnowEffect.start (sq sn : ℚ → ℚ) (rnd : Nat → ℚ) (w h : ℚ) (fid : Nat)
    (s : SnowEffect) : SnowEffect :=
  if s.isRunning then s
  else
    SnowEffect.drawFrame sq sn rnd fid
      { SnowEffect.createFlakes rnd (SnowEffect.init w h s) with isRunning := true }

/-- The state updates always performed by SnowEffect.stop: clear isRunning,
then cancel the pending frame request when the handle is non-null. -/
def SnowEffect.stopState (s : SnowEffect) : SnowEffect :=
  let s1 := { s with isRunning := false }
  match s1.animationFrame with
  | some fid => { s1 with cancelled := fid :: s1.cancelled }
  | none => s1

/-- SnowEffect.stop: clear isRunning; cancel the pending frame request when
the handle is non-null; clear the canvas when the context is non-null. The
clearRect call reads the width and height of the canvas element, so a state
with a context but no canvas would dereference null there; the result is
none exactly in that case. -/
def SnowEffect.stop (s : SnowEffect) : Option SnowEffect :=
  if s.hasCtx then (if s.hasCanvas then some s.stopState else none)
  else some s.stopState

@[simp] lemma SnowEffect.init_hasCanvas (w h : ℚ) (s : SnowEffect) :
    (SnowEffect.init w h s).hasCanvas = true := by
  unfold SnowEffect.init SnowEffect.resize
  split
  · assumption
  · simp

@[simp] lemma SnowEffect.init_rngPos (w h : ℚ) (s : SnowEffect) :
    (SnowEffect.init w h s).rngPos = s.rngPos := by
  unfold SnowEffect.init SnowEffect.resize
  split <;> simp

@[simp] lemma SnowEffect.init_isRunning (w h : ℚ) (s : SnowEffect) :
    (SnowEffect.init w h s).isRunning = s.isRunning := by
  unfold SnowEffect.init SnowEffect.resize
  split <;> simp

@[simp] lemma SnowEffect.move_isRunning (sq sn : ℚ → ℚ) (rnd : Nat → ℚ) (s : SnowEffect) :
    (SnowEffect.move sq sn rnd s).isRunning = s.isRunning := rfl

@[simp] lemma SnowEffect.move_canvasH (sq sn : ℚ → ℚ) (rnd : Nat → ℚ) (s : SnowEffect) :
    (SnowEffect.move sq sn rnd s).canvasH = s.canvasH := rfl

@[simp] lemma SnowEffect.move_hasCanvas (sq sn : ℚ → ℚ) (rnd : Nat → ℚ) (s : SnowEffect) :
    (SnowEffect.move sq sn rnd s).hasCanvas = s.hasCanvas := rfl

@[simp] lemma SnowEffect.move_hasCtx (sq sn : ℚ → ℚ) (rnd : Nat → ℚ) (s : SnowEffect) :
    (SnowEffect.move sq sn rnd s).hasCtx = s.hasCtx := rfl

@[simp] lemma SnowEffect.stopState_isRunning (s : SnowEffect) :
    (SnowEffect.stopState s).isRunning = false := by
  unfold SnowEffect.stopState; cases s.animationFrame <;> rfl

@[simp] lemma SnowEffect.stopState_flakes (s : SnowEffect) :
    (SnowEffect.stopState s).flakes = s.flakes := by
  unfold SnowEffect.stopState; cases s.animationFrame <;> rfl

@[simp] lemma SnowEffect.stopState_rngPos (s : SnowEffect) :
    (SnowEffect.stopState s).rngPos = s.rngPos := by
  unfold SnowEffect.stopState; cases s.animationFrame <;> rfl

@[simp] lemma SnowEffect.stopState_canvasW (s : SnowEffect) :
    (SnowEffect.stopState s).canvasW = s.canvasW := by
  unfold SnowEffect.stopState; cases s.animationFrame <;> rfl

@[simp] lemma SnowEffect.stopState_canvasH (s : SnowEffect) :
    (SnowEffect.stopState s).canvasH = s.canvasH := by
  unfold SnowEffect.stopState; cases s.animationFrame <;> rfl

@[simp] lemma SnowEffect.stopState_hasCanvas (s : SnowEffect) :
    (SnowEffect.stopState s).hasCanvas = s.hasCanvas := by
  unfold SnowEffect.stopState; cases s.animationFrame <;> rfl

@[simp] lemma SnowEffect.stopState_hasCtx (s : SnowEffect) :
    (SnowEffect.stopState s).hasCtx = s.hasCtx := by
  unfold SnowEffect.stopState; cases s.animationFrame <;> rfl

lemma SnowEffect.stop_some_eq (s s' : SnowEffect) (hstop : s.stop = some s') :
    s' = SnowEffect.stopState s := by
  unfold SnowEffect.stop at hstop
  split at hstop
  · split at hstop
    · exact (Option.some.inj hstop).symm
    · cases hstop
  · exact (Option.some.inj hstop).symm

lemma SnowEffect.stop_some_fields (s s' : SnowEffect) (hstop : s.stop = some s') :
    s'.isRunning = false ∧ s'.flakes = s.flakes ∧ s'.rngPos = s.rngPos ∧
    s'.canvasW = s.canvasW ∧ s'.canvasH = s.canvasH ∧ s'.hasCanvas = s.hasCanvas ∧
    s'.hasCtx = s.hasCtx := by
  rw [SnowEffect.stop_some_eq s s' hstop]
  simp

lemma moveFlakes_length (sq sn : ℚ → ℚ) (rnd : Nat → ℚ) (w h : ℚ) (fs : List Flake) :
    ∀ i k, ((moveFlakes sq sn rnd w h i k fs).1).length = fs.length := by
  induction fs with
  | nil => intro i k; rfl
  | cons f fs ih =>
    intro i k
    unfold moveFlakes
    simp [ih]

lemma moveFlakes_getElem (sq sn : ℚ → ℚ) (rnd : Nat → ℚ) (w h : ℚ) (fs : List Flake) :
    ∀ i k j, (hj : j < fs.length) →
      ((moveFlakes sq sn rnd w h i k fs).1)[j]? =
        some (moveFlake sq sn rnd w h (i + j)
          ((moveFlakes sq sn rnd w h i k (fs.take j)).2) fs[j]).1 := by
  induction fs with
  | nil => intro i k j hj; simp at hj
  | cons f fs ih =>
    intro i k j hj
    cases j with
    | zero =>
      simp only [List.take_zero, List.getElem_cons_zero]
      unfold moveFlakes
      simp
    | succ j =>
      have hj2 : j < fs.length := by simpa using hj
      have step := ih (i + 1) (moveFlake sq sn rnd w h i k f).2 j hj2
      unfold moveFlakes
      simp only [List.getElem?_cons_succ, List.take_succ_cons, List.getElem_cons_succ]
      rw [step]
      have harith : i + 1 + j = i + (j + 1) := by omega
      rw [harith]

/-- A reachable overlay state: the constructor state, closed under the
public operations start and stop, the frame callback and the resize
listener. -/
inductive SnowReach : SnowEffect → Prop where
  | base : SnowReach SnowEffect.initial
  | step_start (s : SnowEffect) (sq sn : ℚ → ℚ) (rnd : Nat → ℚ) (w h : ℚ) (fid : Nat) :
      SnowReach s → SnowReach (SnowEffect.start sq sn rnd w h fid s)
  | step_stop (s t : SnowEffect) : SnowReach s → SnowEffect.stop s = some t → SnowReach t
  | step_frame (s : SnowEffect) (sq sn : ℚ → ℚ) (rnd : Nat → ℚ) (fid : Nat) :
      SnowReach s → SnowReach (SnowEffect.drawFrame sq sn rnd fid s)
  | step_resize (s : SnowEffect) (w h : ℚ) : SnowReach s → SnowReach (SnowEffect.resize w h s)

lemma snowReach_ctx_canvas (s : SnowEffect) (hs : SnowReach s) :
    s.hasCtx = true → s.hasCanvas = true := by
  induction hs with
  | base => intro hc; simp [SnowEffect.initial] at hc
  | step_start s sq sn rnd w h fid hr ih =>
    unfold SnowEffect.start
    split
    · exact ih
    · unfold SnowEffect.drawFrame
      split
      · intro _; simp [SnowEffect.createFlakes]
      · intro _; simp [SnowEffect.createFlakes]
  | step_stop s t hr hstop ih =>
    have hf := SnowEffect.stop_some_fields s t hstop
    rw [hf.2.2.2.2.2.1, hf.2.2.2.2.2.2]
    exact ih
  | step_frame s sq sn rnd fid hr ih =>
    unfold SnowEffect.drawFrame
    split
    · simpa using ih
    · exact ih
  | step_resize s w h hr ih =>
    unfold SnowEffect.resize
    split
    · simpa using ih
    · exact ih

/-- Claim C10: stop on an overlay that was never started is safe, and a
no-op beyond clearing isRunning: in the constructor state both the frame
handle and the context are null, the guards skip cancelAnimationFrame and
clearRect, and more generally stop dereferences no null on any reachable
state (stop only evaluates canvas fields under its context guard, and every
reachable state with a context also has a canvas). From SnowEffect.stop
lines 271-279 and the constructor lines 176-182 of src/unnamed/part_000. -/
theorem snow_stop_never_started_safe (s : SnowEffect) (hs : SnowReach s) :
    (SnowEffect.stop s).isSome = true ∧
    SnowEffect.initial.animationFrame = none ∧
    SnowEffect.initial.hasCtx = false ∧
    SnowEffect.stop SnowEffect.initial = some { SnowEffect.initial with isRunning := false } := by
  refine ⟨?_, rfl, rfl, rfl⟩
  have hcc := snowReach_ctx_canvas s hs
  unfold SnowEffect.stop
  split
  · rename_i hctx
    rw [hcc (by simpa using hctx)]
    simp
  · simp

/-- Witness for claim C10 at the concrete never-started constructor state. -/
theorem snow_stop_never_started_safe_witness :
    (SnowEffect.stop SnowEffect.initial).isSome = true ∧
    SnowEffect.initial.animationFrame = none ∧
    SnowEffect.initial.hasCtx = false ∧
    SnowEffect.stop SnowEffect.initial = some { SnowEffect.initial with isRunning := false } :=
  snow_stop_never_started_safe SnowEffect.initial SnowReach.base

@[simp] lemma SnowEffect.createFlakes_canvasW (rnd : Nat → ℚ) (s : SnowEffect) :
    (SnowEffect.createFlakes rnd s).canvasW = s.canvasW := rfl

@[simp] lemma SnowEffect.createFlakes_canvasH (rnd : Nat → ℚ) (s : SnowEffect) :
    (SnowEffect.createFlakes rnd s).canvasH = s.canvasH := rfl

@[simp] lemma SnowEffect.createFlakes_rngPos (rnd : Nat → ℚ) (s : SnowEffect) :
    (SnowEffect.createFlakes rnd s).rngPos = s.rngPos + 5 * 50 := rfl

@[simp] lemma SnowEffect.createFlakes_flakes (rnd : Nat → ℚ) (s : SnowEffect) :
    (SnowEffect.createFlakes rnd s).flakes =
      (List.range 50).map (fun i => mkFlake rnd s.canvasW s.canvasH (s.rngPos + 5 * i)) := rfl

@[simp] lemma SnowEffect.move_flakes (sq sn : ℚ → ℚ) (rnd : Nat → ℚ) (s : SnowEffect) :
    (SnowEffect.move sq sn rnd s).flakes =
      (moveFlakes sq sn rnd s.canvasW s.canvasH 0 s.rngPos s.flakes).1 := rfl

/-- Claim C3: from every prior state on which stop ran (never started,
running, or stopped with any surviving flakes), start regenerates the
particle collection from scratch: the result holds exactly 50 flakes, namely
the 50 freshly drawn mkFlake records (each taking its position, radius,
density and alpha from the random tape) advanced by the single move step of
the draw call that start performs. From SnowEffect.createFlakes lines
212-224 and SnowEffect.start lines 263-269 of src/unnamed/part_000. -/
theorem snow_stop_start_regenerates (s s' : SnowEffect) (sq sn : ℚ → ℚ) (rnd : Nat → ℚ)
    (w h : ℚ) (fid : Nat) (hstop : SnowEffect.stop s = some s') :
    (SnowEffect.start sq sn rnd w h fid s').flakes.length = 50 ∧
    (SnowEffect.start sq sn rnd w h fid s').flakes =
      (moveFlakes sq sn rnd (SnowEffect.init w h s').canvasW (SnowEffect.init w h s').canvasH
        0 (s'.rngPos + 5 * 50)
        ((List.range 50).map (fun i =>
          mkFlake rnd (SnowEffect.init w h s').canvasW (SnowEffect.init w h s').canvasH
            (s'.rngPos + 5 * i)))).1 := by
  have hrun : s'.isRunning = false := (SnowEffect.stop_some_fields s s' hstop).1
  have hstart : (SnowEffect.start sq sn rnd w h fid s').flakes =
      (moveFlakes sq sn rnd (SnowEffect.init w h s').canvasW (SnowEffect.init w h s').canvasH
        0 (s'.rngPos + 5 * 50)
        ((List.range 50).map (fun i =>
          mkFlake rnd (SnowEffect.init w h s').canvasW (SnowEffect.init w h s').canvasH
            (s'.rngPos + 5 * i)))).1 := by
    unfold SnowEffect.start
    rw [if_neg (by simp [hrun])]
    unfold SnowEffect.drawFrame
    rw [if_pos rfl]
    simp
  refine ⟨?_, hstart⟩
  rw [hstart, moveFlakes_length]
  simp

/-- Concrete abstraction of Math.pow with exponent 0.5 used in witnesses
and counterexamples: the constant zero function (nonnegative, as the real
square root is). -/
def sq0 : ℚ → ℚ := fun _ => 0

/-- Concrete abstraction of Math.sin used in witnesses and
counterexamples: the constant zero function. -/
def sn0 : ℚ → ℚ := fun _ => 0

/-- Concrete Math.random tape used in witnesses and counterexamples: the
draw for the initial y of every flake (tape positions congruent to 1 mod 5)
is 9/10, every other draw is 0. -/
def rnd0 : Nat → ℚ := fun n => if n % 5 = 1 then 9/10 else 0

/-- Witness for claim C3: stop then start from the concrete constructor
state. -/
theorem snow_stop_start_regenerates_witness :
    SnowEffect.stop SnowEffect.initial = some SnowEffect.initial ∧
    ((SnowEffect.start sq0 sn0 rnd0 100 1000 7 SnowEffect.initial).flakes.length = 50 ∧
      (SnowEffect.start sq0 sn0 rnd0 100 1000 7 SnowEffect.initial).flakes =
        (moveFlakes sq0 sn0 rnd0 (SnowEffect.init 100 1000 SnowEffect.initial).canvasW
          (SnowEffect.init 100 1000 SnowEffect.initial).canvasH
          0 (SnowEffect.initial.rngPos + 5 * 50)
          ((List.range 50).map (fun i =>
            mkFlake rnd0 (SnowEffect.init 100 1000 SnowEffect.initial).canvasW
              (SnowEffect.init 100 1000 SnowEffect.initial).canvasH
              (SnowEffect.initial.rngPos + 5 * i)))).1) :=
  ⟨rfl, snow_stop_start_regenerates SnowEffect.initial SnowEffect.initial
    sq0 sn0 rnd0 100 1000 7 rfl⟩

/-- Claim C7: start on an overlay that is already running is a no-op (the
isRunning guard returns before anything is scheduled or regenerated), start
always leaves the overlay running, and stop always leaves it stopped; these
are the only transitions of the state machine. From SnowEffect.start lines
263-269 and SnowEffect.stop lines 271-279 of src/unnamed/part_000. -/
theorem snow_start_stop_state_machine (s : SnowEffect) (sq sn : ℚ → ℚ) (rnd : Nat → ℚ)
    (w h : ℚ) (fid : Nat) :
    SnowEffect.start sq sn rnd w h fid { s with isRunning := true } =
      { s with isRunning := true } ∧
    (SnowEffect.start sq sn rnd w h fid s).isRunning = true ∧
    Option.map (fun t => t.isRunning) (SnowEffect.stop s) =
      Option.map (fun _ => false) (SnowEffect.stop s) := by
  refine ⟨?_, ?_, ?_⟩
  · unfold SnowEffect.start
    rw [if_pos rfl]
  · unfold SnowEffect.start
    split
    · assumption
    · unfold SnowEffect.drawFrame
      rw [if_pos rfl]
      simp
  · unfold SnowEffect.stop
    split
    · split <;> simp
    · simp

/-- A function producing only nonnegative values, as Math.pow with exponent
0.5 does on the nonnegative densities. -/
def NonnegFn (g : ℚ → ℚ) : Prop := ∀ q, 0 ≤ g q

/-- A Math.random tape: every draw lies in the interval from 0 inclusive to
1 exclusive. -/
def Tape01 (rnd : Nat → ℚ) : Prop := ∀ n, 0 ≤ rnd n ∧ rnd n < 1

/-- Every flake of the list sits at or above the bottom edge h. -/
def YWithin (h : ℚ) (fs : List Flake) : Prop := ∀ f ∈ fs, f.y ≤ h

/-- Every flake of the list is below the bottom edge h plus its own
per-frame fall delta. -/
def YWithinDelta (sq : ℚ → ℚ) (h : ℚ) (fs : List Flake) : Prop :=
  ∀ f ∈ fs, f.y ≤ h + (sq f.d * (1/2) + 1)

lemma moveFlake_y_le (sq sn : ℚ → ℚ) (rnd : Nat → ℚ) (w h : ℚ) (i k : Nat) (f : Flake)
    (hh : 0 ≤ h) : ((moveFlake sq sn rnd w h i k f).1).y ≤ h := by
  unfold moveFlake
  dsimp only
  split
  · simpa using hh
  · rename_i hgt
    simpa using le_of_not_lt hgt

lemma moveFlakes_y_le (sq sn : ℚ → ℚ) (rnd : Nat → ℚ) (w h : ℚ) (hh : 0 ≤ h) :
    ∀ (fs : List Flake) (i k : Nat), ∀ g ∈ (moveFlakes sq sn rnd w h i k fs).1, g.y ≤ h := by
  intro fs
  induction fs with
  | nil => intro i k g hg; simp [moveFlakes] at hg
  | cons f fs ih =>
    intro i k g hg
    unfold moveFlakes at hg
    simp only [List.mem_cons] at hg
    cases hg with
    | inl hg => rw [hg]; exact moveFlake_y_le sq sn rnd w h i k f hh
    | inr hg => exact ih (i + 1) (moveFlake sq sn rnd w h i k f).2 g hg

@[simp] lemma SnowEffect.drawFrame_canvasH (sq sn : ℚ → ℚ) (rnd : Nat → ℚ) (fid : Nat)
    (s : SnowEffect) : (SnowEffect.drawFrame sq sn rnd fid s).canvasH = s.canvasH := by
  unfold SnowEffect.drawFrame
  split <;> simp

/-- Claim C4, amended: the bound y less or equal canvasHeight plus one
frame delta holds at every drawn frame provided the canvas height was not
reduced since the flakes last moved (a shrinking resize can break it for
one frame, see the counterexample): whenever every flake starts a frame at
or above the bottom edge, every flake is within the stated per-frame delta
bound at that frame, after the move step of the frame every flake is again
at or above the (unchanged) bottom edge, and a fresh createFlakes also
establishes the bound. From SnowEffect.move lines 244-261 and
SnowEffect.draw lines 226-242 of src/unnamed/part_000. -/
theorem snow_frame_y_bound_amended (s : SnowEffect) (sq sn : ℚ → ℚ) (rnd : Nat → ℚ)
    (fid : Nat) (hh : 0 ≤ s.canvasH) (hsq : NonnegFn sq) (hrnd : Tape01 rnd)
    (hinv : YWithin s.canvasH s.flakes) :
    YWithinDelta sq s.canvasH s.flakes ∧
    YWithin (SnowEffect.drawFrame sq sn rnd fid s).canvasH
      (SnowEffect.drawFrame sq sn rnd fid s).flakes ∧
    YWithin (SnowEffect.createFlakes rnd s).canvasH
      (SnowEffect.createFlakes rnd s).flakes := by
  refine ⟨?_, ?_, ?_⟩
  · intro f hf
    have h1 := hinv f hf
    have h2 : 0 ≤ sq f.d * (1/2) := mul_nonneg (hsq f.d) (by norm_num)
    linarith
  · rw [SnowEffect.drawFrame_canvasH]
    unfold SnowEffect.drawFrame
    split
    · intro f hf
      rw [SnowEffect.move_flakes] at hf
      exact moveFlakes_y_le sq sn rnd s.canvasW s.canvasH hh s.flakes 0 s.rngPos f hf
    · exact hinv
  · rw [SnowEffect.createFlakes_canvasH]
    intro f hf
    rw [SnowEffect.createFlakes_flakes] at hf
    simp only [List.mem_map, List.mem_range] at hf
    obtain ⟨i, _, rfl⟩ := hf
    unfold mkFlake
    simp only
    calc rnd (s.rngPos + 5 * i + 1) * s.canvasH
        ≤ 1 * s.canvasH := by
          apply mul_le_mul_of_nonneg_right _ hh
          exact le_of_lt (hrnd (s.rngPos + 5 * i + 1)).2
      _ = s.canvasH := one_mul s.canvasH

/-- Concrete state used to instantiate the amended claim C4 theorem: a
canvas of height 5 holding one flake at height 1. -/
def snowW : SnowEffect :=
  { SnowEffect.initial with canvasH := 5, flakes := [{ x := 2, y := 1, r := 1, d := 0, a := 1/2 }] }

/-- Concrete Math.random tape drawing 0 forever, used in witnesses. -/
def rndW : Nat → ℚ := fun _ => 0

/-- Witness for the amended claim C4 at a concrete running state. -/
theorem snow_frame_y_bound_amended_witness :
    (0 ≤ snowW.canvasH ∧ NonnegFn sq0 ∧ Tape01 rndW ∧ YWithin snowW.canvasH snowW.flakes) ∧
    (YWithinDelta sq0 snowW.canvasH snowW.flakes ∧
      YWithin (SnowEffect.drawFrame sq0 sn0 rndW 3 snowW).canvasH
        (SnowEffect.drawFrame sq0 sn0 rndW 3 snowW).flakes ∧
      YWithin (SnowEffect.createFlakes rndW snowW).canvasH
        (SnowEffect.createFlakes rndW snowW).flakes) :=
  ⟨⟨by norm_num [snowW], fun _ => le_refl 0, fun n => ⟨le_refl 0, by norm_num [rndW]⟩,
      by intro f hf; simp [snowW] at hf; subst hf; norm_num [snowW]⟩,
    snow_frame_y_bound_amended snowW sq0 sn0 rndW 3 (by norm_num [snowW])
      (fun _ => le_refl 0) (fun n => ⟨le_refl 0, by norm_num [rndW]⟩)
      (by intro f hf; simp [snowW] at hf; subst hf; norm_num [snowW])⟩

lemma moveFlakes_getElem_map (sq sn : ℚ → ℚ) (rnd : Nat → ℚ) (w h : ℚ) :
    ∀ (fs : List Flake) (i k j : Nat),
      ((moveFlakes sq sn rnd w h i k fs).1)[j]? =
        Option.map (fun g => (moveFlake sq sn rnd w h (i + j)
          ((moveFlakes sq sn rnd w h i k (fs.take j)).2) g).1) fs[j]? := by
  intro fs
  induction fs with
  | nil => intro i k j; simp [moveFlakes]
  | cons f fs ih =>
    intro i k j
    cases j with
    | zero =>
      unfold moveFlakes
      simp
    | succ j =>
      have step := ih (i + 1) (moveFlake sq sn rnd w h i k f).2 j
      unfold moveFlakes
      simp only [List.getElem?_cons_succ, List.take_succ_cons]
      rw [step]
      have harith : i + 1 + j = i + (j + 1) := by omega
      rw [harith]

/-- Concrete canvas state reached by running start from the constructor
state (which draws one frame, leaving every flake at y 901 against the
canvas height 1000) and then shrinking the viewport with resize to height
10. The overlay is still running, so the next draw call paints the flakes
exactly as stored here before moving them. -/
def snowCex : SnowEffect :=
  SnowEffect.resize 100 10 (SnowEffect.start sq0 sn0 rnd0 100 1000 7 SnowEffect.initial)

/-- The fresh flake list created by the start call inside snowCex. -/
def flist0 : List Flake := (List.range 50).map (fun i => mkFlake rnd0 100 1000 (0 + 5 * i))

/-- The first flake of snowCex. -/
def cexFlake : Flake := { x := 0, y := 901, r := 1, d := 0, a := 0 }

/-- Counterexample to claim C4 as stated: after a shrinking resize the
running overlay holds a flake whose y coordinate 901 exceeds the current
canvas height 10 by far more than its per-frame delta 1, and the flake has
not been reset; the frame drawn on this state paints it there, because
SnowEffect.draw paints the stored flakes before calling move. -/
theorem snow_frame_y_bound_cex :
    snowCex.isRunning = true ∧
    snowCex.canvasH = 10 ∧
    snowCex.flakes[0]? = some cexFlake ∧
    ¬ cexFlake.y ≤ snowCex.canvasH + (sq0 cexFlake.d * (1/2) + 1) := by
  have hcex : snowCex =
      { hasCanvas := true, hasCtx := true, canvasW := 100, canvasH := 10,
        flakes := (moveFlakes sq0 sn0 rnd0 100 1000 0 250 flist0).1,
        isRunning := true, animationFrame := some 7, cancelled := [],
        rngPos := (moveFlakes sq0 sn0 rnd0 100 1000 0 250 flist0).2 } := by
    rfl
  refine ⟨by rw [hcex], by rw [hcex], ?_, ?_⟩
  · rw [hcex]
    dsimp only
    rw [moveFlakes_getElem_map]
    have hf0 : flist0[0]? = some (mkFlake rnd0 100 1000 (0 + 5 * 0)) := by
      simp [flist0, List.getElem?_map]
    rw [hf0]
    norm_num [moveFlake, mkFlake, rnd0, sq0, sn0, cexFlake]
  · rw [hcex]
    norm_num [cexFlake, sq0]

/-- Claim C5: when the advanced y of a flake passes the bottom edge, the
move step replaces it by a flake at y 0 with a fresh random x that keeps
radius, density and alpha exactly, consuming one tape draw; and the move
loop acts on every position of the collection independently (the entry at
each index is the per-flake step of the old entry at that index alone, so
the reset of one flake modifies no other). From SnowEffect.move lines
244-261 of src/unnamed/part_000. -/
theorem snow_reset_preserves_fields (sq sn : ℚ → ℚ) (rnd : Nat → ℚ) (w h : ℚ)
    (i k j : Nat) (f : Flake) (fs : List Flake)
    (hreset : f.y + (sq f.d * (1/2) + 1) > h) :
    moveFlake sq sn rnd w h i k f =
      ({ x := rnd k * w, y := 0, r := f.r, d := f.d, a := f.a }, k + 1) ∧
    ((moveFlakes sq sn rnd w h i k fs).1)[j]? =
      Option.map (fun g => (moveFlake sq sn rnd w h (i + j)
        ((moveFlakes sq sn rnd w h i k (fs.take j)).2) g).1) fs[j]? := by
  refine ⟨?_, moveFlakes_getElem_map sq sn rnd w h fs i k j⟩
  unfold moveFlake
  dsimp only
  rw [if_pos hreset]

/-- A flake below the bottom edge of a height 5 canvas, used to instantiate
the claim C5 theorem. -/
def flakeR : Flake := { x := 0, y := 10, r := 2, d := 0, a := 1/3 }

/-- Witness for claim C5 at a concrete flake past the bottom edge. -/
theorem snow_reset_preserves_fields_witness :
    flakeR.y + (sq0 flakeR.d * (1/2) + 1) > 5 ∧
    (moveFlake sq0 sn0 rndW 100 5 0 4 flakeR =
      ({ x := rndW 4 * 100, y := 0, r := flakeR.r, d := flakeR.d, a := flakeR.a }, 4 + 1) ∧
    ((moveFlakes sq0 sn0 rndW 100 5 0 4 [flakeR]).1)[0]? =
      Option.map (fun g => (moveFlake sq0 sn0 rndW 100 5 (0 + 0)
        ((moveFlakes sq0 sn0 rndW 100 5 0 4 ([flakeR].take 0)).2) g).1) [flakeR][0]?) :=
  ⟨by norm_num [flakeR, sq0],
    snow_reset_preserves_fields sq0 sn0 rndW 100 5 0 4 0 flakeR [flakeR]
      (by norm_num [flakeR, sq0])⟩

/-- Claim C6: each frame of the running overlay advances the flake at every
index j by exactly the density-derived fall speed in y and the sinusoidal
sway keyed to index and density in x, and a non-resetting step consumes no
randomness and reads no state beyond the flake record itself (the tape
cursor passes through unchanged). From SnowEffect.move lines 244-261 of
src/unnamed/part_000. -/
theorem snow_frame_motion_law (sq sn : ℚ → ℚ) (rnd : Nat → ℚ) (fid : Nat)
    (s : SnowEffect) (j k : Nat) (f : Flake)
    (hrun : s.isRunning = true) (hfj : s.flakes[j]? = some f)
    (hkeep : ¬ f.y + (sq f.d * (1/2) + 1) > s.canvasH) :
    (SnowEffect.drawFrame sq sn rnd fid s).flakes[j]? =
      some { f with x := f.x + sn ((j : ℚ) + f.d) * (1/2),
                    y := f.y + (sq f.d * (1/2) + 1) } ∧
    (moveFlake sq sn rnd s.canvasW s.canvasH j k f).2 = k := by
  have hmf : ∀ c, moveFlake sq sn rnd s.canvasW s.canvasH j c f =
      ({ f with x := f.x + sn ((j : ℚ) + f.d) * (1/2),
                y := f.y + (sq f.d * (1/2) + 1) }, c) := by
    intro c
    unfold moveFlake
    dsimp only
    rw [if_neg hkeep]
  constructor
  · unfold SnowEffect.drawFrame
    rw [if_pos hrun]
    dsimp only
    rw [SnowEffect.move_flakes, moveFlakes_getElem_map, hfj]
    simp only [Option.map_some', Nat.zero_add, hmf]
  · rw [hmf k]

/-- A flake far above the bottom edge, used to instantiate the claim C6
theorem. -/
def flakeK : Flake := { x := 2, y := 1, r := 1, d := 0, a := 1/2 }

/-- Concrete running overlay holding the single flake flakeK on a height 5
canvas, used to instantiate the claim C6 theorem. -/
def snowR : SnowEffect :=
  { SnowEffect.initial with canvasH := 5, isRunning := true, flakes := [flakeK] }

/-- Witness for claim C6 at a concrete running state and flake. -/
theorem snow_frame_motion_law_witness :
    snowR.isRunning = true ∧
    snowR.flakes[0]? = some flakeK ∧
    ¬ flakeK.y + (sq0 flakeK.d * (1/2) + 1) > snowR.canvasH ∧
    ((SnowEffect.drawFrame sq0 sn0 rndW 4 snowR).flakes[0]? =
      some { flakeK with x := flakeK.x + sn0 ((0 : ℚ) + flakeK.d) * (1/2),
                         y := flakeK.y + (sq0 flakeK.d * (1/2) + 1) } ∧
    (moveFlake sq0 sn0 rndW snowR.canvasW snowR.canvasH 0 9 flakeK).2 = 9) := by
  have hk : ¬ flakeK.y + (sq0 flakeK.d * (1/2) + 1) > snowR.canvasH := by
    norm_num [flakeK, sq0, snowR]
  exact ⟨rfl, rfl, hk,
    snow_frame_motion_law sq0 sn0 rndW 4 snowR 0 9 flakeK rfl rfl hk⟩
